import Mathlib

/-!
Verification of the event-consumption and reliable-delivery pipeline of the
`post_search` service (Go sources under `internal/core/kafka`, the kafka
`EventService`, and the Elasticsearch `PostRepository`).

The Go code is shallowly embedded: errors become an inductive wrap-chain
mirroring Go's `errors.Is` / `errors.As` unwrapping, the retry executor
mirrors `backoff.RetryNotify` composed with `backoff.WithMaxRetries`
(v4 semantics: `maxTries = 0` means the tries-wrapper always answers `Stop`;
otherwise `NextBackOff` grants `maxTries` retries after the first attempt),
and the per-message branch structure of `ConsumeClaim` is embedded as a
function from the environment (handler outcomes, DLQ producer state, broker
answer) to the list of observable actions (acknowledgement, DLQ attempt).
-/

namespace PostSearch

/-- Sentinel error values compared by identity via `errors.Is`:
the two context errors and the four package-level sentinels declared in the
kafka `EventService` file (`ErrMissingAuthorID`, `ErrInvalidPostID`,
`ErrEmptyTitle`, `ErrInvalidEventFormat`). -/
inductive Sentinel
  | ctxCanceled
  | ctxDeadlineExceeded
  | errInvalidPostID
  | errEmptyTitle
  | errMissingAuthorID
  | errInvalidEventFormat
deriving DecidableEq, Repr

/-- Go `error` values as they occur in this pipeline: a sentinel leaf,
a typed JSON deserialization error (`json.SyntaxError`,
`json.UnmarshalTypeError`, recognised by `errors.As`), any other error
(identified by an opaque name, e.g. a transient network fault),
a `fmt.Errorf("...: %w", inner)` wrapper carrying its rendered message,
or `backoff.Permanent(inner)` (a `*backoff.PermanentError`). -/
inductive GoError
  | sentinel (s : Sentinel)
  | jsonSyntaxError (msg : String)
  | jsonUnmarshalTypeError (msg : String)
  | other (name : String)
  | wrap (msg : String) (inner : GoError)
  | permanentWrap (inner : GoError)
deriving DecidableEq, Repr

namespace GoError

/-- Model of `errors.Is(err, target)` for a sentinel target: walk the unwrap chain
(`fmt.Errorf` wrappers and `backoff.PermanentError` both implement
`Unwrap`) looking for the identical sentinel value. -/
def isErr : GoError → Sentinel → Bool
  | sentinel s, t => s = t
  | jsonSyntaxError _, _ => false
  | jsonUnmarshalTypeError _, _ => false
  | other _, _ => false
  | wrap _ inner, t => inner.isErr t
  | permanentWrap inner, t => inner.isErr t

/-- Model of `errors.As(err, &syntaxError)` with `syntaxError : *json.SyntaxError`:
walk the unwrap chain looking for a value of that type. -/
def asJsonSyntax : GoError → Bool
  | jsonSyntaxError _ => true
  | wrap _ inner => inner.asJsonSyntax
  | permanentWrap inner => inner.asJsonSyntax
  | _ => false

/-- Model of `errors.As(err, &unmarshalTypeError)` with
`unmarshalTypeError : *json.UnmarshalTypeError`. -/
def asJsonUnmarshalType : GoError → Bool
  | jsonUnmarshalTypeError _ => true
  | wrap _ inner => inner.asJsonUnmarshalType
  | permanentWrap inner => inner.asJsonUnmarshalType
  | _ => false

/-- Model of `errors.As(err, &permanent)` with `permanent : *backoff.PermanentError`
as performed inside `backoff.RetryNotify`: find the first
`backoff.PermanentError` in the unwrap chain and yield its `Err` field. -/
def findPermanent : GoError → Option GoError
  | permanentWrap inner => some inner
  | wrap _ inner => inner.findPermanent
  | _ => none

end GoError

/-- Function `isPermanentError` from `internal/core/kafka/handler.go`: decides whether
an error should stop the retry loop.  `nil` is not permanent; context
cancellation/deadline, the four validation sentinels (wrapped occurrences
included), and the two JSON deserialization error types are permanent;
everything else is transient. -/
def isPermanentError : Option GoError → Bool
  | none => false
  | some err =>
    if err.isErr .ctxCanceled || err.isErr .ctxDeadlineExceeded then
      true
    else if err.isErr .errInvalidPostID || err.isErr .errEmptyTitle
        || err.isErr .errMissingAuthorID || err.isErr .errInvalidEventFormat then
      true
    else if err.asJsonSyntax || err.asJsonUnmarshalType then
      true
    else
      false

/-- The spec's description of the permanent classes (§4.2), written
independently of the source's sequence of `errors.Is` / `errors.As` checks:
an error is permanent exactly when the root cause at the end of its wrap
chain is a context error, a declared validation sentinel, or a JSON
deserialization error. -/
def permanentClass : GoError → Bool
  | .sentinel _ => true
  | .jsonSyntaxError _ => true
  | .jsonUnmarshalTypeError _ => true
  | .other _ => false
  | .wrap _ inner => permanentClass inner
  | .permanentWrap inner => permanentClass inner

/-- The closure `retryableOperation` inside `processWithRetry`: run the
handler; on a permanent error hand `backoff.Permanent(err)` to the retry
library, otherwise return the error unchanged so the library retries. -/
def retryableOperation (handlerErr : Option GoError) : Option GoError :=
  match handlerErr with
  | none => none
  | some err =>
    if isPermanentError (some err) then some (GoError.permanentWrap err)
    else some err

/-- The loop of `backoff.RetryNotify` specialised to the backoff used by
`processWithRetry` (`WithMaxRetries(NewExponentialBackOff(), maxRetry)` with
`MaxElapsedTime = 0`, so only the tries-wrapper ever answers `Stop`).
`remaining` is the number of retries the tries-wrapper still grants,
`attempt` the number of operation invocations already performed.  Returns
the total number of invocations together with the final error: `none` on
success; on `errors.As` finding a `backoff.PermanentError` its `Err` field;
otherwise the last error once `NextBackOff` answers `Stop`. -/
def retryNotifyAux (op : Nat → Option GoError) : Nat → Nat → Nat × Option GoError
  | remaining, attempt =>
    match op attempt with
    | none => (attempt + 1, none)
    | some err =>
      match err.findPermanent with
      | some inner => (attempt + 1, some inner)
      | none =>
        match remaining with
        | 0 => (attempt + 1, some err)
        | r + 1 => retryNotifyAux op r (attempt + 1)

/-- Function `processWithRetry` from `internal/core/kafka/handler.go`: run the
message handler under `backoff.RetryNotify(retryableOperation,
backoff.WithMaxRetries(bo, maxRetry), notifyFunc)`.  The handler is
modelled as the sequence of outcomes of its successive invocations
(`handler n` = outcome of invocation number `n`, counted from 0;
`none` = success).  Result: (number of invocations, final error). -/
def processWithRetry (maxRetry : Nat) (handler : Nat → Option GoError) :
    Nat × Option GoError :=
  retryNotifyAux (fun n => retryableOperation (handler n)) maxRetry 0

/-- A Go `time.Time` as the pipeline observes it: whether it is the zero
value (`IsZero()`), and its `UTC().Format(time.RFC3339Nano)` rendering. -/
structure MsgTime where
  isZero : Bool
  utc : String
deriving DecidableEq, Repr

/-- A `sarama.ConsumerMessage` (fields the pipeline reads): topic,
partition (`int32`), offset (`int64`), optional key (`nil` vs a byte
slice), value bytes, and the broker timestamp. -/
structure ConsumerMessage where
  topic : String
  partition : Int
  offset : Int
  key : Option (List Nat)
  value : List Nat
  timestamp : MsgTime
deriving DecidableEq, Repr

/-- A Kafka record-header value: a string rendered to bytes, or raw bytes
(the original key is copied verbatim). -/
inductive HVal
  | str (s : String)
  | bytes (b : List Nat)
deriving DecidableEq, Repr

/-- A `sarama.ProducerMessage` as built by `SendToDLQ`. -/
structure ProducerMessage where
  topic : String
  value : List Nat
  key : Option (List Nat)
  headers : List (String × HVal)
deriving DecidableEq, Repr

/-- Outcome of a call to `SendToDLQ` up to handing the built message to
`producer.SendMessage`: a nil-pointer dereference panic (a log call reads
`originalMessage.Topic` on a nil message), an early error return with no
publish attempted, or the built dead-letter message being sent. -/
inductive DlqResult
  | panicNilDeref
  | errNoSend (e : GoError)
  | send (m : ProducerMessage)
deriving DecidableEq, Repr

/-- Function `SendToDLQ` from the kafka package, up to the `SendMessage` call.
Parameter order mirrors the Go checks: logger-nil, producer-nil (its error
log reads `originalMessage.Topic` — a panic when the message is nil),
dlq-topic empty (same hazard), message-nil, then the header construction
and the `ProducerMessage` (value and key taken verbatim from the original;
`now` is the `time.Now().UTC()` RFC3339Nano rendering). -/
def SendToDLQ (loggerNil : Bool) (producerNil : Bool) (dlqTopic : String)
    (originalMessage : Option ConsumerMessage) (processingError : Option GoError)
    (now : String) : DlqResult :=
  if loggerNil then
    .errNoSend (.other "发送到 DLQ 失败：logger 实例不能为空")
  else if producerNil then
    match originalMessage with
    | none => .panicNilDeref
    | some _ => .errNoSend (.other "发送到 DLQ 失败：DLQ 生产者实例 (producer) 未配置")
  else if dlqTopic = "" then
    match originalMessage with
    | none => .panicNilDeref
    | some _ => .errNoSend (.other "发送到 DLQ 失败：DLQ 主题名称 (dlqTopic) 未配置")
  else
    match originalMessage with
    | none => .errNoSend (.other "发送到 DLQ 失败：原始消息 (originalMessage) 不能为空")
    | some msg =>
      let headers : List (String × HVal) :=
        [("dlq_original_topic", .str msg.topic),
         ("dlq_original_partition", .str (toString msg.partition)),
         ("dlq_original_offset", .str (toString msg.offset)),
         ("dlq_timestamp_utc", .str now)]
        ++ (match processingError with
            | some e => [("dlq_processing_error", .str (errorText e))]
            | none => [])
        ++ (match msg.key with
            | some k => [("dlq_original_key", .bytes k)]
            | none => [])
        ++ [("dlq_original_message_timestamp_utc",
             .str (if msg.timestamp.isZero then "original_timestamp_is_zero"
                   else msg.timestamp.utc))]
      .send { topic := dlqTopic
              value := msg.value
              key := msg.key
              headers := headers }
where
  /-- Rendering of `err.Error()`: the rendered message of an error (a `fmt.Errorf`
  wrapper carries its full rendered text in the model). -/
  errorText : GoError → String
  | .sentinel .ctxCanceled => "context canceled"
  | .sentinel .ctxDeadlineExceeded => "context deadline exceeded"
  | .sentinel .errInvalidPostID => "无效的帖子ID"
  | .sentinel .errEmptyTitle => "帖子标题不能为空"
  | .sentinel .errMissingAuthorID => "帖子作者ID不能为空"
  | .sentinel .errInvalidEventFormat => "无效的事件格式或缺少关键数据"
  | .jsonSyntaxError m => m
  | .jsonUnmarshalTypeError m => m
  | .other n => n
  | .wrap m _ => m
  | .permanentWrap inner => errorText inner

/-- The headers of the message a `SendToDLQ` call handed to the producer
(empty when no publish was attempted). -/
def dlqHeaders : DlqResult → List (String × HVal)
  | .send m => m.headers
  | _ => []

/-- Observable actions of one iteration of the `ConsumeClaim` loop. -/
inductive Action
  | markMessage
  | dlqAttempt
deriving DecidableEq, Repr

/-- One iteration of the `ConsumeClaim` message loop from
`internal/core/kafka/handler.go`, as a function of the environment:
whether the topic has a registered handler, the retry budget and the
handler's successive outcomes, the DLQ producer state and topic, the
broker's answer to `SendMessage` (`brokerErr`, also covering the bounded
10s DLQ context expiring first), and the wall clock.  Returns the actions
taken for the message: ack on unknown topic; on processing success ack; on
terminal failure one `SendToDLQ` call followed by an ack whether or not the
forward succeeded (a crash inside `SendToDLQ` would reach no ack). -/
def consumeOneMessage (registered : Bool) (maxRetry : Nat)
    (handler : Nat → Option GoError) (producerNil : Bool) (dlqTopic : String)
    (brokerErr : Option GoError) (now : String) (msg : ConsumerMessage) :
    List Action :=
  if registered = false then
    [Action.markMessage]
  else
    match (processWithRetry maxRetry handler).2 with
    | none => [Action.markMessage]
    | some procErr =>
      match SendToDLQ false producerNil dlqTopic (some msg) (some procErr) now with
      | .panicNilDeref => [Action.dlqAttempt]
      | .errNoSend _ => [Action.dlqAttempt, Action.markMessage]
      | .send _ =>
        match brokerErr with
        | some _ => [Action.dlqAttempt, Action.markMessage]
        | none => [Action.dlqAttempt, Action.markMessage]

/-- Result of one call to `Handler.Setup`: the channel state afterwards,
how many `close` operations were performed, and whether the call panicked
(`close` of an already-closed Go channel panics). -/
structure SetupResult where
  closed : Bool
  closes : Nat
  panicked : Bool
deriving DecidableEq, Repr

/-- Closing a Go channel: panics (modelled as `none`) when the channel is
already closed, otherwise yields the closed state. -/
def closeChan : Bool → Option Bool
  | true => none
  | false => some true

/-- Function `Handler.Setup` from `internal/core/kafka/handler.go` acting on
the `ready` channel state (`closed = true` once the channel is closed):
`select { case <-h.ready: skip; default: close(h.ready) }` — a receive on a
closed channel fires immediately, so the close only runs while the channel
is still open. -/
def Setup (closed : Bool) : SetupResult :=
  if closed then
    { closed := closed, closes := 0, panicked := false }
  else
    match closeChan closed with
    | none => { closed := closed, closes := 0, panicked := true }
    | some c => { closed := c, closes := 1, panicked := false }

/-- Repeated calls to `Setup` starting from channel state `closed`:
accumulates the total number of `close` operations and whether any call
panicked. -/
def setupIter : Nat → Bool → Bool × Nat × Bool
  | 0, closed => (closed, 0, false)
  | n + 1, closed =>
    let r := Setup closed
    let rest := setupIter n r.closed
    (rest.1, r.closes + rest.2.1, r.panicked || rest.2.2)

/-- Post data carried by a `kafkaevents.PostApprovedEvent` (`event.Post`),
as consumed by `HandlePostApprovedEvent`.  `id` is a `uint64`; the price is
a `float64` carried opaquely as its 64-bit pattern (it is only copied, never
computed with). -/
structure PostData where
  id : Nat
  title : String
  content : String
  authorID : String
  authorAvatar : String
  authorUsername : String
  status : Int
  viewCount : Int
  officialTag : Int
  pricePerUnit : Nat
  contactInfo : String
deriving DecidableEq, Repr

/-- A `kafkaevents.PostApprovedEvent`. -/
structure PostApprovedEvent where
  eventID : String
  post : PostData
deriving DecidableEq, Repr

/-- An `models.EsPostDocument` as populated by `HandlePostApprovedEvent`
(the fields the struct literal does not mention stay at their zero value). -/
structure EsPostDocument where
  id : Nat
  title : String
  content : String
  authorID : String
  authorAvatar : String
  authorUsername : String
  status : Int
  viewCount : Int
  officialTag : Int
  pricePerUnit : Nat
  contactInfo : String
  createdAt : Int := 0
deriving DecidableEq, Repr

/-- Function `EventService.HandlePostApprovedEvent`: validate the event
(`ID > 0`, non-empty title; violations return a `fmt.Errorf` wrapping the
sentinel), map the event into an `EsPostDocument`, and call
`postRepo.IndexPost`; a storage error is wrapped with `%w` before being
returned.  `indexPost` models the repository (its answer per document);
the second component lists the documents `IndexPost` was invoked with. -/
def HandlePostApprovedEvent (indexPost : EsPostDocument → Option GoError)
    (event : PostApprovedEvent) : Option GoError × List EsPostDocument :=
  if event.post.id ≤ 0 then
    (some (.wrap "处理帖子审核通过事件失败，帖子 ID 无效" (.sentinel .errInvalidPostID)), [])
  else if event.post.title = "" then
    (some (.wrap "处理帖子审核通过事件失败，帖子标题为空" (.sentinel .errEmptyTitle)), [])
  else
    let postDoc := mapToEsPostDocument event.post
    match indexPost postDoc with
    | some err => (some (.wrap "索引帖子到 Elasticsearch 失败" err), [postDoc])
    | none => (none, [postDoc])
where
  /-- The struct literal building `models.EsPostDocument` from
  `event.Post` inside `HandlePostApprovedEvent`. -/
  mapToEsPostDocument (postData : PostData) : EsPostDocument :=
    { id := postData.id
      title := postData.title
      content := postData.content
      authorID := postData.authorID
      authorAvatar := postData.authorAvatar
      authorUsername := postData.authorUsername
      status := postData.status
      viewCount := postData.viewCount
      officialTag := postData.officialTag
      pricePerUnit := postData.pricePerUnit
      contactInfo := postData.contactInfo }

/-- A post-deleted event: the wrapper in `handler.go` reads the
`models.KafkaPostDeleteEvent` fields `Operation` and `PostID` (a `uint64`);
the service reads the post id. -/
structure KafkaPostDeleteEvent where
  operation : String
  postID : Nat
deriving DecidableEq, Repr

/-- Function `EventService.HandlePostDeleteEvent`: validate `PostID > 0`
(violation returns a `fmt.Errorf` wrapping `ErrInvalidPostID` with no
storage call), then call `postRepo.DeletePost`; a storage error is wrapped.
`deletePostResult` models the repository's answer; the second component
counts `DeletePost` invocations. -/
def HandlePostDeleteEvent (deletePostResult : Option GoError)
    (event : KafkaPostDeleteEvent) : Option GoError × Nat :=
  if event.postID ≤ 0 then
    (some (.wrap "处理帖子删除事件失败，帖子 ID 无效" (.sentinel .errInvalidPostID)), 0)
  else
    match deletePostResult with
    | some err => (some (.wrap "从 Elasticsearch 删除帖子失败" err), 1)
    | none => (none, 1)

/-- Function `Handler.handlePostDeleteEvent` from `handler.go`: deserialize
the message value (a failure returns `backoff.Permanent` of the wrapped
JSON error, no service call), skip with success when the operation
discriminator is not `"delete"` (no retry, no DLQ), otherwise delegate to
the service.  `unmarshal` models the `json.Unmarshal` outcome. -/
def handlePostDeleteEvent (unmarshal : Except GoError KafkaPostDeleteEvent)
    (deletePostResult : Option GoError) : Option GoError × Nat :=
  match unmarshal with
  | .error err => (some (.permanentWrap (.wrap "反序列化 PostDeleteEvent 失败" err)), 0)
  | .ok event =>
    if event.operation ≠ "delete" then
      (none, 0)
    else
      HandlePostDeleteEvent deletePostResult event

/-- An Elasticsearch response as `DeletePost` observes it: a transport
error from `req.Do` (network/client failure), or an HTTP response with a
status code and body.  `esapi.Response.IsError()` is `StatusCode > 299`. -/
inductive EsResponse
  | transportError (e : GoError)
  | http (status : Nat) (body : String)
deriving DecidableEq, Repr

/-- Function `esPostRepository.DeletePost` from
`internal/repositories/es_post.go` as a function of the Elasticsearch
response: transport errors are wrapped; a 404 status is treated as success
(idempotent delete); any other error status (`IsError()`, i.e. > 299)
returns the wrapped ES error; success statuses return nil. -/
def DeletePost (postID : Nat) (resp : EsResponse) : Option GoError :=
  match resp with
  | .transportError e =>
    some (.wrap ("Elasticsearch 删除请求 (ID: " ++ toString postID ++ ") 失败") e)
  | .http status body =>
    if status = 404 then none
    else if 299 < status then
      some (.wrap ("Elasticsearch 操作 '删除文档' 失败，响应: " ++ body)
        (.other "es_error_response"))
    else none

/-! ## Supporting lemmas -/

/-- Unwrapping a `fmt.Errorf` layer does not change the permanence verdict. -/
lemma isPermanentError_wrap (m : String) (inner : GoError) :
    isPermanentError (some (.wrap m inner)) = isPermanentError (some inner) := by
  simp [isPermanentError, GoError.isErr, GoError.asJsonSyntax, GoError.asJsonUnmarshalType]

/-- Unwrapping a `backoff.PermanentError` layer does not change the
permanence verdict. -/
lemma isPermanentError_permanentWrap (inner : GoError) :
    isPermanentError (some (.permanentWrap inner)) = isPermanentError (some inner) := by
  simp [isPermanentError, GoError.isErr, GoError.asJsonSyntax, GoError.asJsonUnmarshalType]

/-- One-step unfolding of the retry loop. -/
lemma retryNotifyAux_step (op : Nat → Option GoError) (remaining attempt : Nat) :
    retryNotifyAux op remaining attempt =
      match op attempt with
      | none => (attempt + 1, none)
      | some err =>
        match err.findPermanent with
        | some inner => (attempt + 1, some inner)
        | none =>
          match remaining with
          | 0 => (attempt + 1, some err)
          | r + 1 => retryNotifyAux op r (attempt + 1) := by
  rw [retryNotifyAux.eq_def]

/-- The retry loop performs at most `remaining + 1` further invocations. -/
lemma retryNotifyAux_attempts_le (op : Nat → Option GoError) :
    ∀ remaining attempt, (retryNotifyAux op remaining attempt).1 ≤ attempt + remaining + 1 := by
  intro remaining
  induction remaining with
  | zero =>
    intro attempt
    rw [retryNotifyAux_step]
    cases h : op attempt with
    | none => simp
    | some err => cases hp : err.findPermanent <;> simp [hp]
  | succ r ih =>
    intro attempt
    rw [retryNotifyAux_step]
    cases h : op attempt with
    | none => simp
    | some err =>
      cases hp : err.findPermanent with
      | some inner => simp [hp]
      | none =>
        have hrec := ih (attempt + 1)
        simp only [hp]
        omega

/-- When every invocation of the operation fails with an error that is not
a `backoff.PermanentError`, the loop uses its whole budget: exactly
`remaining + 1` invocations, ending in failure. -/
lemma retryNotifyAux_all_transient (op : Nat → Option GoError)
    (hop : ∀ n, ∃ e, op n = some e ∧ e.findPermanent = none) :
    ∀ remaining attempt,
      (retryNotifyAux op remaining attempt).1 = attempt + remaining + 1 ∧
      (retryNotifyAux op remaining attempt).2 ≠ none := by
  intro remaining
  induction remaining with
  | zero =>
    intro attempt
    obtain ⟨e, he, hp⟩ := hop attempt
    rw [retryNotifyAux_step]
    simp [he, hp]
  | succ r ih =>
    intro attempt
    obtain ⟨e, he, hp⟩ := hop attempt
    have hrec := ih (attempt + 1)
    rw [retryNotifyAux_step]
    simp only [he, hp]
    exact ⟨by rw [hrec.1]; omega, hrec.2⟩

/-- When the first invocation yields an error whose chain starts a
`backoff.PermanentError`, the loop stops after that single invocation and
surfaces the wrapped error, whatever the retry budget. -/
lemma retryNotifyAux_permanent_first (op : Nat → Option GoError) (attempt : Nat)
    (err inner : GoError) (h : op attempt = some err)
    (hp : err.findPermanent = some inner) :
    ∀ remaining, retryNotifyAux op remaining attempt = (attempt + 1, some inner) := by
  intro remaining
  rw [retryNotifyAux_step]
  simp [h, hp]

/-- Inside `ConsumeClaim` the message argument of `SendToDLQ` is the message
just pulled from the claim, never nil, so the nil-dereference panic inside
`SendToDLQ` is unreachable from the consume loop. -/
lemma sendToDLQ_some_message_no_panic (producerNil : Bool) (dlqTopic : String)
    (msg : ConsumerMessage) (procErr : Option GoError) (now : String) :
    SendToDLQ false producerNil dlqTopic (some msg) procErr now ≠ .panicNilDeref := by
  cases producerNil with
  | true => simp [SendToDLQ]
  | false =>
    simp [SendToDLQ]
    split <;> simp

/-- Every branch of the consume-loop body acknowledges the message exactly
once. -/
lemma consumeOneMessage_mark_count (registered : Bool) (maxRetry : Nat)
    (handler : Nat → Option GoError) (producerNil : Bool) (dlqTopic : String)
    (brokerErr : Option GoError) (now : String) (msg : ConsumerMessage) :
    (consumeOneMessage registered maxRetry handler producerNil dlqTopic brokerErr
      now msg).count Action.markMessage = 1 := by
  unfold consumeOneMessage
  cases registered with
  | false => rfl
  | true =>
    simp only [Bool.true_eq_false, if_false]
    cases hproc : (processWithRetry maxRetry handler).2 with
    | none => rfl
    | some procErr =>
      cases hdlq : SendToDLQ false producerNil dlqTopic (some msg) (some procErr) now with
      | panicNilDeref =>
        exact absurd hdlq (sendToDLQ_some_message_no_panic _ _ _ _ _)
      | errNoSend e => simp [hdlq]
      | send m => cases brokerErr <;> simp [hdlq]

/-- On a terminal processing failure the consume-loop body makes exactly one
dead-letter forward attempt. -/
lemma consumeOneMessage_dlq_count_of_failure (maxRetry : Nat)
    (handler : Nat → Option GoError) (producerNil : Bool) (dlqTopic : String)
    (brokerErr : Option GoError) (now : String) (msg : ConsumerMessage)
    (hfailres : (processWithRetry maxRetry handler).2 ≠ none) :
    (consumeOneMessage true maxRetry handler producerNil dlqTopic brokerErr
      now msg).count Action.dlqAttempt = 1 := by
  unfold consumeOneMessage
  simp only [Bool.true_eq_false, if_false]
  cases hproc : (processWithRetry maxRetry handler).2 with
  | none => exact absurd hproc hfailres
  | some procErr =>
    cases hdlq : SendToDLQ false producerNil dlqTopic (some msg) (some procErr) now with
    | panicNilDeref => exact absurd hdlq (sendToDLQ_some_message_no_panic _ _ _ _ _)
    | errNoSend e => simp [hdlq]
    | send m => cases brokerErr <;> simp [hdlq]

/-- On processing success the consume-loop body only acknowledges: no
dead-letter forward attempt is made. -/
lemma consumeOneMessage_success_trace (maxRetry : Nat)
    (handler : Nat → Option GoError) (producerNil : Bool) (dlqTopic : String)
    (brokerErr : Option GoError) (now : String) (msg : ConsumerMessage)
    (hok : (processWithRetry maxRetry handler).2 = none) :
    consumeOneMessage true maxRetry handler producerNil dlqTopic brokerErr now msg
      = [Action.markMessage] := by
  unfold consumeOneMessage
  simp [hok]

/-- A handler that succeeds on its first invocation is invoked once and the
retry loop reports success. -/
lemma processWithRetry_success_first (maxRetry : Nat) (handler : Nat → Option GoError)
    (h0 : handler 0 = none) : processWithRetry maxRetry handler = (1, none) := by
  unfold processWithRetry
  rw [retryNotifyAux_step]
  simp [h0, retryableOperation]

/-! ## C1 -/

/-- C1 counterexample. With the configured maximum retry attempt count set
to 3 and a handler that always fails transiently, `processWithRetry`
invokes the handler 4 times (the initial attempt plus 3 retries granted by
`backoff.WithMaxRetries`), not 3 as the claim states. -/
theorem three_retries_make_four_attempts_counterexample :
    (processWithRetry 3 (fun _ => some (GoError.other "es down"))).1 = 4 ∧
    (processWithRetry 3 (fun _ => some (GoError.other "es down"))).1 ≠ 3 :=
  ⟨rfl, by decide⟩

/-- C1 (amended). For every handler, `processWithRetry` invokes it at most
`maxRetry + 1` times (one initial attempt plus at most `maxRetry` retries);
when the handler fails transiently on every invocation (non-nil errors that
are neither classified permanent by `isPermanentError` nor wrapped in
`backoff.Permanent`) it is invoked exactly `maxRetry + 1` times, the final
result is still a failure, and the consume loop then makes exactly one
dead-letter forward attempt. -/
theorem transient_failures_attempt_ceiling (maxRetry : Nat)
    (handler : Nat → Option GoError) (producerNil : Bool) (dlqTopic now : String)
    (brokerErr : Option GoError) (msg : ConsumerMessage)
    (hfail : ∀ n, handler n ≠ none)
    (htrans : ∀ n, isPermanentError (handler n) = false)
    (hplain : ∀ n, ∀ e, handler n = some e → e.findPermanent = none) :
    (∀ h : Nat → Option GoError, (processWithRetry maxRetry h).1 ≤ maxRetry + 1) ∧
    (processWithRetry maxRetry handler).1 = maxRetry + 1 ∧
    (processWithRetry maxRetry handler).2 ≠ none ∧
    (consumeOneMessage true maxRetry handler producerNil dlqTopic brokerErr now
      msg).count Action.dlqAttempt = 1 := by
  have hop : ∀ n, ∃ e, retryableOperation (handler n) = some e ∧
      e.findPermanent = none := by
    intro n
    cases hn : handler n with
    | none => exact absurd hn (hfail n)
    | some e =>
      refine ⟨e, ?_, hplain n e hn⟩
      have ht := htrans n
      rw [hn] at ht
      simp [retryableOperation, ht]
  have hall := retryNotifyAux_all_transient
    (fun n => retryableOperation (handler n)) hop maxRetry 0
  refine ⟨?_, ?_, ?_, ?_⟩
  · intro h
    have := retryNotifyAux_attempts_le (fun n => retryableOperation (h n)) maxRetry 0
    simpa [processWithRetry] using this
  · simpa [processWithRetry] using hall.1
  · simpa [processWithRetry] using hall.2
  · exact consumeOneMessage_dlq_count_of_failure _ _ _ _ _ _ _
      (by simpa [processWithRetry] using hall.2)

/-- Witness for C1 (amended) at `maxRetry = 3` with a handler whose every
invocation fails with a transient storage error. -/
theorem transient_failures_attempt_ceiling_witness :
    (∀ h : Nat → Option GoError, (processWithRetry 3 h).1 ≤ 3 + 1) ∧
    (processWithRetry 3 (fun _ => some (GoError.other "es down"))).1 = 3 + 1 ∧
    (processWithRetry 3 (fun _ => some (GoError.other "es down"))).2 ≠ none ∧
    (consumeOneMessage true 3 (fun _ => some (GoError.other "es down"))
      false "dlq-topic" none "2026-01-01T00:00:00Z"
      { topic := "post_audit", partition := 0, offset := 42, key := none,
        value := [1, 2], timestamp := { isZero := false, utc := "2025-12-31T23:59:59Z" } }).count
      Action.dlqAttempt = 1 :=
  transient_failures_attempt_ceiling 3 (fun _ => some (GoError.other "es down"))
    false "dlq-topic" "2026-01-01T00:00:00Z" none
    { topic := "post_audit", partition := 0, offset := 42, key := none,
      value := [1, 2], timestamp := { isZero := false, utc := "2025-12-31T23:59:59Z" } }
    (fun _ => by simp) (fun _ => rfl)
    (fun _ e he => by simp only [Option.some.injEq] at he; subst he; rfl)

/-! ## C2 -/

/-- C2. Every message delivered to the consume loop is acknowledged
(`session.MarkMessage`) exactly once, for every environment: unknown topic
(no registered handler), processing success, terminal failure with
successful dead-letter forward, and terminal failure where the dead-letter
forward itself fails (early error or broker failure). -/
theorem consume_claim_acknowledges_every_message_exactly_once
    (registered : Bool) (maxRetry : Nat) (handler : Nat → Option GoError)
    (producerNil : Bool) (dlqTopic : String) (brokerErr : Option GoError)
    (now : String) (msg : ConsumerMessage) :
    (consumeOneMessage registered maxRetry handler producerNil dlqTopic brokerErr
      now msg).count Action.markMessage = 1 :=
  consumeOneMessage_mark_count registered maxRetry handler producerNil dlqTopic
    brokerErr now msg

/-! ## C3 -/

/-- C3. When the first handler invocation fails with an error classified as
permanent by `isPermanentError`, `processWithRetry` performs exactly one
invocation and returns that error unchanged, whatever the retry budget; the
consume loop then makes exactly one dead-letter forward attempt and
acknowledges the message exactly once. -/
theorem permanent_error_single_attempt_and_one_dlq (maxRetry : Nat)
    (handler : Nat → Option GoError) (e : GoError) (producerNil : Bool)
    (dlqTopic now : String) (brokerErr : Option GoError) (msg : ConsumerMessage)
    (h0 : handler 0 = some e) (hperm : isPermanentError (some e) = true) :
    processWithRetry maxRetry handler = (1, some e) ∧
    (consumeOneMessage true maxRetry handler producerNil dlqTopic brokerErr now
      msg).count Action.dlqAttempt = 1 ∧
    (consumeOneMessage true maxRetry handler producerNil dlqTopic brokerErr now
      msg).count Action.markMessage = 1 := by
  have hop0 : retryableOperation (handler 0) = some (GoError.permanentWrap e) := by
    rw [h0]
    simp [retryableOperation, hperm]
  have hmain : processWithRetry maxRetry handler = (1, some e) := by
    have := retryNotifyAux_permanent_first (fun n => retryableOperation (handler n))
      0 (GoError.permanentWrap e) e hop0 rfl maxRetry
    simpa [processWithRetry] using this
  refine ⟨hmain, ?_, consumeOneMessage_mark_count _ _ _ _ _ _ _ _⟩
  exact consumeOneMessage_dlq_count_of_failure _ _ _ _ _ _ _ (by rw [hmain]; simp)

/-- Witness for C3 at a handler returning a wrapped `ErrInvalidPostID`
(a permanent validation failure) on its first invocation, with retry
budget 3. -/
theorem permanent_error_single_attempt_and_one_dlq_witness :
    processWithRetry 3
      (fun _ => some (GoError.wrap "处理失败" (GoError.sentinel Sentinel.errInvalidPostID)))
      = (1, some (GoError.wrap "处理失败" (GoError.sentinel Sentinel.errInvalidPostID))) ∧
    (consumeOneMessage true 3
      (fun _ => some (GoError.wrap "处理失败" (GoError.sentinel Sentinel.errInvalidPostID)))
      false "dlq-topic" none "2026-01-01T00:00:00Z"
      { topic := "post_audit", partition := 0, offset := 7, key := none,
        value := [3], timestamp := { isZero := true, utc := "" } }).count
      Action.dlqAttempt = 1 ∧
    (consumeOneMessage true 3
      (fun _ => some (GoError.wrap "处理失败" (GoError.sentinel Sentinel.errInvalidPostID)))
      false "dlq-topic" none "2026-01-01T00:00:00Z"
      { topic := "post_audit", partition := 0, offset := 7, key := none,
        value := [3], timestamp := { isZero := true, utc := "" } }).count
      Action.markMessage = 1 :=
  permanent_error_single_attempt_and_one_dlq 3
    (fun _ => some (GoError.wrap "处理失败" (GoError.sentinel Sentinel.errInvalidPostID)))
    (GoError.wrap "处理失败" (GoError.sentinel Sentinel.errInvalidPostID))
    false "dlq-topic" "2026-01-01T00:00:00Z" none
    { topic := "post_audit", partition := 0, offset := 7, key := none,
      value := [3], timestamp := { isZero := true, utc := "" } }
    rfl rfl

/-! ## C4 -/

/-- C4. `isPermanentError` is a total function over error values; it maps
`nil` to `false`, and on every non-nil error it answers exactly the spec's
classification `permanentClass`: true precisely when the wrap chain bottoms
out in a context cancellation/deadline error, one of the four declared
validation sentinels, or a JSON deserialization error (`json.SyntaxError`,
`json.UnmarshalTypeError`) — wrapped occurrences included — and false on
every other error. -/
theorem isPermanentError_classifies_exactly_the_permanent_classes :
    isPermanentError none = false ∧
    ∀ e : GoError, isPermanentError (some e) = permanentClass e := by
  refine ⟨rfl, ?_⟩
  intro e
  induction e with
  | sentinel s => cases s <;> rfl
  | jsonSyntaxError m => rfl
  | jsonUnmarshalTypeError m => rfl
  | other n => rfl
  | wrap m inner ih => rw [isPermanentError_wrap, ih]; rfl
  | permanentWrap inner ih => rw [isPermanentError_permanentWrap, ih]; rfl

/-! ## C9 -/

/-- C9. The readiness signal is closed-once idempotent: from a fresh
(`closed = false`) channel the first `Setup` call performs exactly one
`close` and leaves the channel closed, a `Setup` call on the closed channel
performs no `close` and does not panic, and any sequence of `n + 1`
consecutive `Setup` calls from fresh state performs exactly one `close` in
total and never panics (`Setup` always returns nil: `SetupResult` carries
no error component because the Go method's only return is `nil`). -/
theorem setup_close_once_idempotent :
    Setup false = { closed := true, closes := 1, panicked := false } ∧
    Setup true = { closed := true, closes := 0, panicked := false } ∧
    (∀ n : Nat, setupIter n true = (true, 0, false)) ∧
    (∀ n : Nat, setupIter (n + 1) false = (true, 1, false)) := by
  have hclosed : ∀ n : Nat, setupIter n true = (true, 0, false) := by
    intro n
    induction n with
    | zero => rfl
    | succ k ih => simp [setupIter, Setup, ih]
  refine ⟨rfl, rfl, hclosed, ?_⟩
  intro n
  simp [setupIter, Setup, closeChan, hclosed]

/-! ## C8 -/

/-- C8. `DeletePost` treats a 404 (document not found) response from the
storage backend as success: it returns nil, so deleting the same business
key twice (both times answered 404) succeeds both times, and the
deleted-event processor, fed the result of such a delete for a valid post
id, completes successfully (one storage call, no error). -/
theorem deletePost_not_found_is_success (postID : Nat) (body1 body2 : String)
    (event : KafkaPostDeleteEvent) (hid : 0 < event.postID) :
    DeletePost postID (.http 404 body1) = none ∧
    DeletePost postID (.http 404 body2) = none ∧
    HandlePostDeleteEvent (DeletePost event.postID (.http 404 body1)) event = (none, 1) := by
  refine ⟨rfl, rfl, ?_⟩
  simp [HandlePostDeleteEvent, DeletePost, Nat.not_le.mpr hid, Nat.pos_iff_ne_zero.mp hid]

/-- Witness for C8 at a concrete input: post id 7, not-found responses. -/
theorem deletePost_not_found_is_success_witness :
    DeletePost 7 (.http 404 "{}") = none ∧
    DeletePost 7 (.http 404 "{}") = none ∧
    HandlePostDeleteEvent (DeletePost 7 (.http 404 "{}"))
      { operation := "delete", postID := 7 } = (none, 1) :=
  deletePost_not_found_is_success 7 "{}" "{}" { operation := "delete", postID := 7 }
    (by decide)

/-! ## C5 -/

/-- C5 counterexample. A dead-letter message built from an original message
whose key is nil does not carry the `dlq_original_key` header: the built
header list consists of exactly the other six headers. -/
theorem dead_letter_missing_key_header_counterexample :
    (dlqHeaders (SendToDLQ false false "dlq-topic"
        (some { topic := "post_audit", partition := 0, offset := 42, key := none,
                value := [1, 2, 3],
                timestamp := { isZero := false, utc := "2025-12-31T23:59:59Z" } })
        (some (GoError.other "processing failed")) "2026-01-01T00:00:00Z")).map Prod.fst =
      ["dlq_original_topic", "dlq_original_partition", "dlq_original_offset",
       "dlq_timestamp_utc", "dlq_processing_error",
       "dlq_original_message_timestamp_utc"] ∧
    "dlq_original_key" ∉
      (dlqHeaders (SendToDLQ false false "dlq-topic"
        (some { topic := "post_audit", partition := 0, offset := 42, key := none,
                value := [1, 2, 3],
                timestamp := { isZero := false, utc := "2025-12-31T23:59:59Z" } })
        (some (GoError.other "processing failed")) "2026-01-01T00:00:00Z")).map Prod.fst := by
  constructor
  · rfl
  · decide

/-- C5 (amended). For every call with a configured topic, a non-nil
producer, a non-nil processing error and an original message with a non-nil
key, the built dead-letter message carries the original value byte for
byte, preserves the original key, and carries exactly the seven headers
`dlq_original_topic`, `dlq_original_partition`, `dlq_original_offset`,
`dlq_timestamp_utc`, `dlq_processing_error`, `dlq_original_key`, and
`dlq_original_message_timestamp_utc` (the last holding the explicit marker
string when the original timestamp is the zero value); when the original
key or the processing error is nil, the corresponding header is omitted. -/
theorem dead_letter_envelope_contents (dlqTopic now : String)
    (msg : ConsumerMessage) (procErr : GoError) (k : List Nat)
    (htopic : dlqTopic ≠ "") (hkey : msg.key = some k) :
    SendToDLQ false false dlqTopic (some msg) (some procErr) now =
      .send { topic := dlqTopic
              value := msg.value
              key := msg.key
              headers :=
                [("dlq_original_topic", .str msg.topic),
                 ("dlq_original_partition", .str (toString msg.partition)),
                 ("dlq_original_offset", .str (toString msg.offset)),
                 ("dlq_timestamp_utc", .str now),
                 ("dlq_processing_error", .str (SendToDLQ.errorText procErr)),
                 ("dlq_original_key", .bytes k),
                 ("dlq_original_message_timestamp_utc",
                  .str (if msg.timestamp.isZero then "original_timestamp_is_zero"
                        else msg.timestamp.utc))] } := by
  simp [SendToDLQ, htopic, hkey]

/-- Witness for C5 (amended) at a concrete message with a key and a zero
original timestamp. -/
theorem dead_letter_envelope_contents_witness :
    SendToDLQ false false "dlq-topic"
      (some { topic := "post_audit", partition := 2, offset := 99, key := some [7, 8],
              value := [1, 2, 3], timestamp := { isZero := true, utc := "" } })
      (some (GoError.other "processing failed")) "2026-01-01T00:00:00Z" =
      .send { topic := "dlq-topic"
              value := [1, 2, 3]
              key := some [7, 8]
              headers :=
                [("dlq_original_topic", .str "post_audit"),
                 ("dlq_original_partition", .str "2"),
                 ("dlq_original_offset", .str "99"),
                 ("dlq_timestamp_utc", .str "2026-01-01T00:00:00Z"),
                 ("dlq_processing_error",
                  .str (SendToDLQ.errorText (GoError.other "processing failed"))),
                 ("dlq_original_key", .bytes [7, 8]),
                 ("dlq_original_message_timestamp_utc",
                  .str (if (true : Bool) then "original_timestamp_is_zero" else ""))] } :=
  dead_letter_envelope_contents "dlq-topic" "2026-01-01T00:00:00Z"
    { topic := "post_audit", partition := 2, offset := 99, key := some [7, 8],
      value := [1, 2, 3], timestamp := { isZero := true, utc := "" } }
    (GoError.other "processing failed") [7, 8] (by decide) rfl

/-! ## C6 -/

/-- C6 counterexample. A storage error is not propagated unchanged: on a
valid approved event with a transiently failing store, the processor
returns the storage error wrapped in a new `fmt.Errorf` context error, not
the storage error itself. -/
theorem storage_error_wrapped_not_unchanged_counterexample :
    (HandlePostApprovedEvent (fun _ => some (GoError.other "es 503"))
      { eventID := "evt-1",
        post := { id := 1, title := "t", content := "c", authorID := "a",
                  authorAvatar := "", authorUsername := "u", status := 1,
                  viewCount := 0, officialTag := 0, pricePerUnit := 0,
                  contactInfo := "" } }).1 ≠ some (GoError.other "es 503") ∧
    (HandlePostApprovedEvent (fun _ => some (GoError.other "es 503"))
      { eventID := "evt-1",
        post := { id := 1, title := "t", content := "c", authorID := "a",
                  authorAvatar := "", authorUsername := "u", status := 1,
                  viewCount := 0, officialTag := 0, pricePerUnit := 0,
                  contactInfo := "" } }).1 =
      some (GoError.wrap "索引帖子到 Elasticsearch 失败" (GoError.other "es 503")) := by
  constructor
  · decide
  · rfl

/-- C6 (amended). The approved-event processor validates before indexing:
a non-positive post id yields an error wrapping `ErrInvalidPostID` with no
`IndexPost` call; a valid id with an empty title yields an error wrapping
`ErrEmptyTitle` with no `IndexPost` call; otherwise the event fields are
mapped into the storage document, `IndexPost` is called exactly once with
that document, and a storage error is returned wrapped in a new context
error carrying the storage error in its chain (not returned unchanged). -/
theorem approved_event_validation_mapping_and_wrapped_storage_error
    (indexPost : EsPostDocument → Option GoError) (event : PostApprovedEvent) :
    (event.post.id ≤ 0 →
      HandlePostApprovedEvent indexPost event =
        (some (.wrap "处理帖子审核通过事件失败，帖子 ID 无效" (.sentinel .errInvalidPostID)), []) ∧
      (HandlePostApprovedEvent indexPost event).1.map
        (fun e => e.isErr .errInvalidPostID) = some true) ∧
    (0 < event.post.id → event.post.title = "" →
      HandlePostApprovedEvent indexPost event =
        (some (.wrap "处理帖子审核通过事件失败，帖子标题为空" (.sentinel .errEmptyTitle)), []) ∧
      (HandlePostApprovedEvent indexPost event).1.map
        (fun e => e.isErr .errEmptyTitle) = some true) ∧
    (0 < event.post.id → event.post.title ≠ "" →
      (HandlePostApprovedEvent indexPost event).2 =
        [HandlePostApprovedEvent.mapToEsPostDocument event.post] ∧
      ∀ e, indexPost (HandlePostApprovedEvent.mapToEsPostDocument event.post) = some e →
        (HandlePostApprovedEvent indexPost event).1 =
          some (.wrap "索引帖子到 Elasticsearch 失败" e)) := by
  refine ⟨?_, ?_, ?_⟩
  · intro h
    constructor
    · simp [HandlePostApprovedEvent, h]
    · simp [HandlePostApprovedEvent, h, GoError.isErr]
  · intro h1 h2
    have hn : ¬ event.post.id ≤ 0 := Nat.not_le.mpr h1
    constructor
    · simp [HandlePostApprovedEvent, hn, h2]
    · simp [HandlePostApprovedEvent, hn, h2, GoError.isErr]
  · intro h1 h2
    have hn : ¬ event.post.id ≤ 0 := Nat.not_le.mpr h1
    constructor
    · cases hix : indexPost (HandlePostApprovedEvent.mapToEsPostDocument event.post) with
      | none => simp [HandlePostApprovedEvent, hn, h2, hix]
      | some err => simp [HandlePostApprovedEvent, hn, h2, hix]
    · intro e he
      simp [HandlePostApprovedEvent, hn, h2, he]

/-- Witness for C6 (amended), applying the three branches at concrete
events: id 0 (invalid), id 5 with empty title, and a valid event indexed
against a store failing with a transient error. -/
theorem approved_event_validation_witness :
    (HandlePostApprovedEvent (fun _ => none)
      { eventID := "e0",
        post := { id := 0, title := "t", content := "", authorID := "a",
                  authorAvatar := "", authorUsername := "", status := 1,
                  viewCount := 0, officialTag := 0, pricePerUnit := 0,
                  contactInfo := "" } } =
      (some (.wrap "处理帖子审核通过事件失败，帖子 ID 无效" (.sentinel .errInvalidPostID)), []) ∧
     (HandlePostApprovedEvent (fun _ => none)
      { eventID := "e0",
        post := { id := 0, title := "t", content := "", authorID := "a",
                  authorAvatar := "", authorUsername := "", status := 1,
                  viewCount := 0, officialTag := 0, pricePerUnit := 0,
                  contactInfo := "" } }).1.map
        (fun e => e.isErr .errInvalidPostID) = some true) ∧
    (HandlePostApprovedEvent (fun _ => none)
      { eventID := "e1",
        post := { id := 5, title := "", content := "", authorID := "a",
                  authorAvatar := "", authorUsername := "", status := 1,
                  viewCount := 0, officialTag := 0, pricePerUnit := 0,
                  contactInfo := "" } } =
      (some (.wrap "处理帖子审核通过事件失败，帖子标题为空" (.sentinel .errEmptyTitle)), []) ∧
     (HandlePostApprovedEvent (fun _ => none)
      { eventID := "e1",
        post := { id := 5, title := "", content := "", authorID := "a",
                  authorAvatar := "", authorUsername := "", status := 1,
                  viewCount := 0, officialTag := 0, pricePerUnit := 0,
                  contactInfo := "" } }).1.map
        (fun e => e.isErr .errEmptyTitle) = some true) ∧
    ((HandlePostApprovedEvent (fun _ => some (GoError.other "es 503"))
      { eventID := "e2",
        post := { id := 5, title := "t", content := "", authorID := "a",
                  authorAvatar := "", authorUsername := "", status := 1,
                  viewCount := 0, officialTag := 0, pricePerUnit := 0,
                  contactInfo := "" } }).2 =
      [HandlePostApprovedEvent.mapToEsPostDocument
        { id := 5, title := "t", content := "", authorID := "a",
          authorAvatar := "", authorUsername := "", status := 1,
          viewCount := 0, officialTag := 0, pricePerUnit := 0,
          contactInfo := "" }] ∧
     (HandlePostApprovedEvent (fun _ => some (GoError.other "es 503"))
      { eventID := "e2",
        post := { id := 5, title := "t", content := "", authorID := "a",
                  authorAvatar := "", authorUsername := "", status := 1,
                  viewCount := 0, officialTag := 0, pricePerUnit := 0,
                  contactInfo := "" } }).1 =
      some (.wrap "索引帖子到 Elasticsearch 失败" (GoError.other "es 503"))) :=
  ⟨(approved_event_validation_mapping_and_wrapped_storage_error (fun _ => none)
      { eventID := "e0",
        post := { id := 0, title := "t", content := "", authorID := "a",
                  authorAvatar := "", authorUsername := "", status := 1,
                  viewCount := 0, officialTag := 0, pricePerUnit := 0,
                  contactInfo := "" } }).1 (by decide),
   (approved_event_validation_mapping_and_wrapped_storage_error (fun _ => none)
      { eventID := "e1",
        post := { id := 5, title := "", content := "", authorID := "a",
                  authorAvatar := "", authorUsername := "", status := 1,
                  viewCount := 0, officialTag := 0, pricePerUnit := 0,
                  contactInfo := "" } }).2.1 (by decide) rfl,
   by
    have h := (approved_event_validation_mapping_and_wrapped_storage_error
      (fun _ => some (GoError.other "es 503"))
      { eventID := "e2",
        post := { id := 5, title := "t", content := "", authorID := "a",
                  authorAvatar := "", authorUsername := "", status := 1,
                  viewCount := 0, officialTag := 0, pricePerUnit := 0,
                  contactInfo := "" } }).2.2 (by decide) (by decide)
    exact ⟨h.1, h.2 (GoError.other "es 503") rfl⟩⟩

/-! ## C7 -/

/-- C7. A deleted event whose operation discriminator differs from
`"delete"` is a no-op success in the topic handler: no storage call, the
retry executor performs a single successful invocation, and the consume
loop acknowledges the message with no dead-letter forward attempt; and a
deleted event whose post id is not positive makes the service return an
error wrapping `ErrInvalidPostID` (classified permanent) with no storage
call. -/
theorem delete_event_mismatched_operation_noop_and_invalid_id
    (deleteResult : Option GoError) (event : KafkaPostDeleteEvent)
    (maxRetry : Nat) (producerNil : Bool) (dlqTopic now : String)
    (brokerErr : Option GoError) (msg : ConsumerMessage) :
    (event.operation ≠ "delete" →
      handlePostDeleteEvent (.ok event) deleteResult = (none, 0) ∧
      processWithRetry maxRetry
        (fun _ => (handlePostDeleteEvent (.ok event) deleteResult).1) = (1, none) ∧
      consumeOneMessage true maxRetry
        (fun _ => (handlePostDeleteEvent (.ok event) deleteResult).1)
        producerNil dlqTopic brokerErr now msg = [Action.markMessage]) ∧
    (event.postID ≤ 0 →
      HandlePostDeleteEvent deleteResult event =
        (some (.wrap "处理帖子删除事件失败，帖子 ID 无效" (.sentinel .errInvalidPostID)), 0) ∧
      isPermanentError (HandlePostDeleteEvent deleteResult event).1 = true) := by
  constructor
  · intro hne
    have hnoop : handlePostDeleteEvent (.ok event) deleteResult = (none, 0) := by
      simp [handlePostDeleteEvent, hne]
    have hretry : processWithRetry maxRetry
        (fun _ => (handlePostDeleteEvent (.ok event) deleteResult).1) = (1, none) :=
      processWithRetry_success_first _ _ (by rw [hnoop])
    exact ⟨hnoop, hretry,
      consumeOneMessage_success_trace _ _ _ _ _ _ _ (by rw [hretry])⟩
  · intro hle
    have h : HandlePostDeleteEvent deleteResult event =
        (some (.wrap "处理帖子删除事件失败，帖子 ID 无效" (.sentinel .errInvalidPostID)), 0) := by
      simp [HandlePostDeleteEvent, hle]
    exact ⟨h, by rw [h]; rfl⟩

/-- Witness for C7 at concrete events: operation `"archive"` (mismatched
discriminator, post id 5), and a delete event with post id 0. -/
theorem delete_event_mismatched_operation_witness :
    (handlePostDeleteEvent (.ok { operation := "archive", postID := 5 }) none = (none, 0) ∧
     processWithRetry 3
       (fun _ => (handlePostDeleteEvent (.ok { operation := "archive", postID := 5 }) none).1)
       = (1, none) ∧
     consumeOneMessage true 3
       (fun _ => (handlePostDeleteEvent (.ok { operation := "archive", postID := 5 }) none).1)
       false "dlq-topic" none "2026-01-01T00:00:00Z"
       { topic := "post_delete", partition := 1, offset := 10, key := none,
         value := [9], timestamp := { isZero := true, utc := "" } } = [Action.markMessage]) ∧
    (HandlePostDeleteEvent none { operation := "delete", postID := 0 } =
       (some (.wrap "处理帖子删除事件失败，帖子 ID 无效" (.sentinel .errInvalidPostID)), 0) ∧
     isPermanentError
       (HandlePostDeleteEvent none { operation := "delete", postID := 0 }).1 = true) :=
  ⟨(delete_event_mismatched_operation_noop_and_invalid_id none
      { operation := "archive", postID := 5 } 3 false "dlq-topic" "2026-01-01T00:00:00Z"
      none
      { topic := "post_delete", partition := 1, offset := 10, key := none,
        value := [9], timestamp := { isZero := true, utc := "" } }).1 (by decide),
   (delete_event_mismatched_operation_noop_and_invalid_id none
      { operation := "delete", postID := 0 } 3 false "dlq-topic" "2026-01-01T00:00:00Z"
      none
      { topic := "post_delete", partition := 1, offset := 10, key := none,
        value := [9], timestamp := { isZero := true, utc := "" } }).2 (by decide)⟩

/-! ## C10 -/

/-- C10 counterexample. With a nil original message combined with a nil
producer (or with an empty dead-letter topic), `SendToDLQ` panics with a
nil-pointer dereference in its error-log call instead of returning a
non-nil error. -/
theorem sendToDLQ_nil_message_guard_panics_counterexample :
    SendToDLQ false true "dlq-topic" none (some (GoError.other "boom"))
      "2026-01-01T00:00:00Z" = .panicNilDeref ∧
    SendToDLQ false false "" none (some (GoError.other "boom"))
      "2026-01-01T00:00:00Z" = .panicNilDeref :=
  ⟨rfl, rfl⟩

/-- C10 (amended). When the original message is non-nil, a nil producer or
an empty dead-letter topic makes `SendToDLQ` return a non-nil error without
any publish attempt and without panicking; a nil original message with a
non-nil producer and a configured topic likewise returns a non-nil error
without publishing; but a nil original message combined with a nil producer
or an empty topic dereferences the nil message in the guard's log call. -/
theorem sendToDLQ_degenerate_inputs_no_publish (producerNil : Bool)
    (dlqTopic now : String) (msg : ConsumerMessage) (procErr : Option GoError) :
    ((producerNil = true ∨ dlqTopic = "") →
      ∃ e, SendToDLQ false producerNil dlqTopic (some msg) procErr now = .errNoSend e) ∧
    (producerNil = false → dlqTopic ≠ "" →
      ∃ e, SendToDLQ false producerNil dlqTopic none procErr now = .errNoSend e) := by
  constructor
  · rintro (hp | ht)
    · subst hp
      exact ⟨_, rfl⟩
    · subst ht
      cases producerNil <;> exact ⟨_, rfl⟩
  · intro hp ht
    subst hp
    have hnil : SendToDLQ false false dlqTopic none procErr now =
        .errNoSend (.other "发送到 DLQ 失败：原始消息 (originalMessage) 不能为空") := by
      simp [SendToDLQ, ht]
    exact ⟨_, hnil⟩

/-- Witness for C10 (amended): nil producer with a present message, and a
nil message with a healthy producer and topic. -/
theorem sendToDLQ_degenerate_inputs_no_publish_witness :
    (∃ e, SendToDLQ false true "dlq-topic"
      (some { topic := "post_audit", partition := 0, offset := 1, key := none,
              value := [], timestamp := { isZero := true, utc := "" } })
      none "2026-01-01T00:00:00Z" = .errNoSend e) ∧
    (∃ e, SendToDLQ false false "dlq-topic" none none
      "2026-01-01T00:00:00Z" = .errNoSend e) :=
  ⟨(sendToDLQ_degenerate_inputs_no_publish true "dlq-topic" "2026-01-01T00:00:00Z"
      { topic := "post_audit", partition := 0, offset := 1, key := none,
        value := [], timestamp := { isZero := true, utc := "" } } none).1
      (Or.inl rfl),
   (sendToDLQ_degenerate_inputs_no_publish false "dlq-topic" "2026-01-01T00:00:00Z"
      { topic := "post_audit", partition := 0, offset := 1, key := none,
        value := [], timestamp := { isZero := true, utc := "" } } none).2
      rfl (by decide)⟩

end PostSearch
